import Mathlib

/-!
Verification development for the conversation context compression subsystem of
the chat-o-llama repository: `utils/context_analyzer.py`,
`utils/token_estimation.py`, `utils/compression_strategies.py` and
`utils/compression_engine.py`.

Modelling conventions:
* Python floats are modelled as exact rationals (`ℚ`); Python non-negative ints
  as `Nat`.  List indices computed by Python slice arithmetic are modelled as
  `Int` and fed through a faithful model of Python slice semantics (including
  the `xs[-0:] = xs` / `xs[:-0] = []` behaviour).
* Regular-expression searches from the source are modelled as decidable
  scanning functions over `List Char`.  Each scan is documented with the
  regex it implements.  Character classes (`\w`, `\s`, `\d`) are modelled at
  ASCII precision, and `str.lower`/`str.strip` as their ASCII restrictions.
* Wall-clock readings are explicit parameters (`now`), except strategy
  durations (`compression_time_ms = int((time.time()-start)*1000)`), which
  are modelled as 0.
-/

namespace ChatOLlama

/-- Clamp a Python slice index to an actual position in a list of length
`len`: negative indices count from the end, and both directions saturate. -/
def pySliceIdx (len : Nat) (i : Int) : Nat :=
  if i < 0 then len - (-i).toNat else min i.toNat len

/-- Python `l[i:]` (arbitrary, possibly negative, `i`). -/
def pySliceFrom (l : List α) (i : Int) : List α :=
  l.drop (pySliceIdx l.length i)

/-- Python `l[:i]` (arbitrary, possibly negative, `i`). -/
def pySliceTo (l : List α) (i : Int) : List α :=
  l.take (pySliceIdx l.length i)

/-- Python `l[a:b]` (arbitrary, possibly negative, indices). -/
def pySlice (l : List α) (a b : Int) : List α :=
  (l.take (pySliceIdx l.length b)).drop (pySliceIdx l.length a)

/-- Python `l[-n:]` for a natural `n`.  For `n = 0` this is `l[-0:] = l[0:]`,
the whole list — the quirk the tier-3 path of the hybrid strategy hits. -/
def sliceLastPy (l : List α) (n : Nat) : List α :=
  pySliceFrom l (-(n : Int))

/-- Python `l[:-n]` for a natural `n`.  For `n = 0` this is `l[:-0] = l[:0]`,
the empty list. -/
def sliceDropLastPy (l : List α) (n : Nat) : List α :=
  pySliceTo l (-(n : Int))

/-- Python/regex `\s` (ASCII part): space, tab, newline, carriage return,
vertical tab, form feed. -/
def pyIsSpaceChar (c : Char) : Bool :=
  c = ' ' || c = '\t' || c = '\n' || c = '\r' || c = '\x0b' || c = '\x0c'

/-- Regex `\w` (ASCII part): letters, digits, underscore. -/
def pyIsWordChar (c : Char) : Bool :=
  c.isAlpha || c.isDigit || c = '_'

/-- ASCII lower-casing of one character (model of `str.lower` per char). -/
def asciiLowerChar (c : Char) : Char :=
  if 'A' ≤ c && c ≤ 'Z' then Char.ofNat (c.toNat + 32) else c

/-- ASCII upper-casing of one character. -/
def asciiUpperChar (c : Char) : Char :=
  if 'a' ≤ c && c ≤ 'z' then Char.ofNat (c.toNat - 32) else c

/-- Python `str.lower()` (ASCII restriction). -/
def pyLower (s : String) : String :=
  ⟨s.data.map asciiLowerChar⟩

/-- Python `str.strip()` (ASCII whitespace restriction). -/
def pyStrip (s : String) : String :=
  ⟨((s.data.dropWhile pyIsSpaceChar).reverse.dropWhile pyIsSpaceChar).reverse⟩

/-- Python `str.capitalize()` (ASCII restriction): first character
upper-cased, the rest lower-cased. -/
def pyCapitalize (s : String) : String :=
  match s.data with
  | [] => ""
  | c :: rest => ⟨asciiUpperChar c :: rest.map asciiLowerChar⟩

/-- Python `needle in hay` substring containment on character lists. -/
def containsSub (hay needle : List Char) : Bool :=
  needle.isPrefixOf hay ||
    match hay with
    | [] => false
    | _ :: t => containsSub t needle

/-- One-or-more characters of a class, then all further ones (maximal munch);
returns the remainder.  Used only where the following pattern piece draws
from a disjoint character class, so maximal munch equals regex backtracking. -/
def classPlus (p : Char → Bool) (l : List Char) : Option (List Char) :=
  match l with
  | [] => none
  | c :: r => if p c then some (r.dropWhile p) else none

/-- Regex `\s+` (maximal munch, see `classPlus`). -/
def spacePlus (l : List Char) : Option (List Char) :=
  classPlus pyIsSpaceChar l

/-- Regex `\w+` (maximal munch, see `classPlus`). -/
def wordPlus (l : List Char) : Option (List Char) :=
  classPlus pyIsWordChar l

/-- Regex `\s*`. -/
def spaceStar (l : List Char) : List Char :=
  l.dropWhile pyIsSpaceChar

/-- Literal character match, returning the remainder. -/
def litChar (c : Char) (l : List Char) : Option (List Char) :=
  match l with
  | [] => none
  | d :: r => if d = c then some r else none

/-- Literal string match, returning the remainder. -/
def lit (pat : List Char) (l : List Char) : Option (List Char) :=
  if pat.isPrefixOf l then some (l.drop pat.length) else none

/-- Scan for an occurrence of (non-empty) `pat` whose remainder satisfies
`after` — the model of `re.search` for patterns `pat⟨after⟩` with no word
boundary requirement. -/
def scanLit (pat : List Char) (after : List Char → Bool) : List Char → Bool
  | [] => false
  | c :: r =>
    (pat.isPrefixOf (c :: r) && after ((c :: r).drop pat.length)) ||
      scanLit pat after r

/-- Scan for an occurrence of keyword `kw` (starting with a word character)
preceded by a word boundary (`\bkw`), whose remainder satisfies `after`.
`prevWord` says whether the character just before the current position is a
word character. -/
def scanKwB (kw : List Char) (after : List Char → Bool) :
    (prevWord : Bool) → List Char → Bool
  | _, [] => false
  | prevWord, c :: r =>
    (!prevWord && kw.isPrefixOf (c :: r) && after ((c :: r).drop kw.length)) ||
      scanKwB kw after (pyIsWordChar c) r

/-- `true` when the position just past the matched text is a word boundary
(end of string, or a non-word character). -/
def wordBoundaryAfter (l : List Char) : Bool :=
  match l with
  | [] => true
  | c :: _ => !pyIsWordChar c

/-! ### Question detection (`ContextAnalyzer._is_question`) -/

/-- The leading interrogative words of `ContextAnalyzer._is_question`'s
pattern `^(what|how|why|when|where|who|which|can|could|would|should|is|are|do|does|did)`. -/
def question_starters : List String :=
  ["what", "how", "why", "when", "where", "who", "which", "can", "could",
   "would", "should", "is", "are", "do", "does", "did"]

/-- The phrase alternatives of `_is_question`'s pattern
`(help|explain|tell me|show me|guide)`. -/
def question_phrases : List String :=
  ["help", "explain", "tell me", "show me", "guide"]

/-- Model of `ContextAnalyzer._is_question`: the three regex searches are run
on `content.lower().strip()`; after stripping, `\?$` is exactly "ends with
`?`", `^(...)` is "starts with one of the words", and the phrase pattern is
substring containment. -/
def is_question (content : String) : Bool :=
  let l := (pyStrip (pyLower content)).data
  (match l.getLast? with
   | some c => c = '?'
   | none => false) ||
    question_starters.any (fun w => w.data.isPrefixOf l) ||
    question_phrases.any (fun w => containsSub l w.data)

/-! ### Code detection (`ContextAnalyzer._contains_code`)

All six patterns are searched with `re.IGNORECASE`; the model scans the
ASCII-lower-cased text, which is equivalent because lower-casing preserves
the `\w`/`\s` classes and all the non-letter literals involved. -/

/-- After an opening backtick: regex `[^`]+` then a closing backtick.  A
backtick met immediately restarts the span from that backtick (regex
`re.search` would match from there). -/
def inlineCodeSpan : List Char → Bool
  | [] => false
  | '`' :: _ => true
  | _ :: r => inlineCodeSpan r

/-- See `hasInlineCode`. -/
def inlineCodeAfterTick : List Char → Bool
  | [] => false
  | '`' :: r => inlineCodeAfterTick r
  | _ :: r => inlineCodeSpan r

/-- Regex `` `[^`]+` ``: an inline code span — a backtick, one or more
non-backtick characters, a backtick. -/
def hasInlineCode : List Char → Bool
  | [] => false
  | '`' :: r => inlineCodeAfterTick r
  | _ :: r => hasInlineCode r

/-- Remainder predicate for `\s+\w+` (used by the
`class`/`function`/`var`/`let`/`const` declaration patterns). -/
def afterKwSpaceWord (l : List Char) : Bool :=
  ((spacePlus l).bind wordPlus).isSome

/-- Remainder predicate for `\s+\w+\s*\(` (the `def` declaration pattern). -/
def afterDefKw (l : List Char) : Bool :=
  (((spacePlus l).bind wordPlus).map spaceStar |>.bind (litChar '(')).isSome

/-- Regex
`\bdef\s+\w+\s*\(|\bclass\s+\w+|\bfunction\s+\w+|\bvar\s+\w+|\blet\s+\w+|\bconst\s+\w+`
on the lower-cased text. -/
def hasDeclKeyword (l : List Char) : Bool :=
  scanKwB "def".data afterDefKw false l ||
    scanKwB "class".data afterKwSpaceWord false l ||
    scanKwB "function".data afterKwSpaceWord false l ||
    scanKwB "var".data afterKwSpaceWord false l ||
    scanKwB "let".data afterKwSpaceWord false l ||
    scanKwB "const".data afterKwSpaceWord false l

/-- `l.get? (i-1)` is a word character (for `\b` tests at position `i`). -/
def prevIsWord (s : List Char) (i : Nat) : Bool :=
  match i with
  | 0 => false
  | j + 1 =>
    match s.get? j with
    | some c => pyIsWordChar c
    | none => false

/-- `(s.take b).drop a` — the characters at positions `[a, b)`. -/
def sliceChars (s : List Char) (a b : Nat) : List Char :=
  (s.take b).drop a

/-- Regex `\bkw1\s+.*\bkw2\b` (`.` does not match newline, `\s` does):
there is a word-boundary occurrence of `kw1` at `i`, a split point `j` with
only whitespace on `[i+|kw1|, j)` (at least one character), no newline on
`[j, k)`, and a word-boundary-delimited occurrence of `kw2` at `k`.
Models the SQL `SELECT … FROM` / `UPDATE … SET` patterns. -/
def sqlPairMatch (kw1 kw2 : List Char) (s : List Char) : Bool :=
  (List.range (s.length + 1)).any fun i =>
    !prevIsWord s i && (lit kw1 (s.drop i)).isSome &&
      ((List.range (s.length + 1)).any fun k =>
        i + kw1.length < k && !prevIsWord s k &&
          (match lit kw2 (s.drop k) with
           | some rest => wordBoundaryAfter rest
           | none => false) &&
          ((List.range (k + 1)).any fun j =>
            i + kw1.length < j && j ≤ k &&
              (sliceChars s (i + kw1.length) j).all pyIsSpaceChar &&
              (sliceChars s j k).all (· ≠ '\n')))

/-- Regex `\bkw1\s+kw2\b` (the `INSERT INTO` / `DELETE FROM` patterns). -/
def sqlAdjacentMatch (kw1 kw2 : List Char) (s : List Char) : Bool :=
  scanKwB kw1
    (fun rest =>
      match (spacePlus rest).bind (lit kw2) with
      | some r => wordBoundaryAfter r
      | none => false)
    false s

/-- Regex
`\bSELECT\s+.*\bFROM\b|\bINSERT\s+INTO\b|\bUPDATE\s+.*\bSET\b|\bDELETE\s+FROM\b`
on the lower-cased text. -/
def hasSqlPattern (l : List Char) : Bool :=
  sqlPairMatch "select".data "from".data l ||
    sqlAdjacentMatch "insert".data "into".data l ||
    sqlPairMatch "update".data "set".data l ||
    sqlAdjacentMatch "delete".data "from".data l

/-- The regex class `["\w]`. -/
def jsonClassChar (c : Char) : Bool :=
  c = '"' || pyIsWordChar c

/-- Remainder (after an opening brace) of regex `\s*["\w]+\s*:` — shared by
the code-detector and token-estimator JSON patterns. -/
def jsonColonCore (l : List Char) : Option (List Char) :=
  ((classPlus jsonClassChar (spaceStar l)).map spaceStar).bind (litChar ':')

/-- Scan for an opening brace whose remainder satisfies `after`.  The brace
is written via its code point. -/
def scanOpenBrace (after : List Char → Bool) : List Char → Bool
  | [] => false
  | c :: r => (c = Char.ofNat 123 && after r) || scanOpenBrace after r

/-- Regex `{\s*["\w]+\s*:\s*["\w]` (the JSON-like pattern of
`_contains_code`). -/
def hasJsonValue (l : List Char) : Bool :=
  scanOpenBrace
    (fun r =>
      match (jsonColonCore r).map spaceStar with
      | some (c :: _) => jsonClassChar c
      | _ => false)
    l

/-- Regex `{\s*["\w]+\s*:` (the JSON-like pattern of
`_detect_content_type`). -/
def hasJsonColon (l : List Char) : Bool :=
  scanOpenBrace (fun r => (jsonColonCore r).isSome) l

/-- Regex `<\w+[^>]*>.*</\w+>`: an opening tag (`<`, a word character at
`i+1`, no `>` until the closing `>` at `g`), then same-line text, then
`</`, `\w+`, `>`. -/
def htmlOpenClose (s : List Char) : Bool :=
  (List.range s.length).any fun i =>
    decide (s.get? i = some '<') &&
      (match s.get? (i + 1) with
       | some c => pyIsWordChar c
       | none => false) &&
      ((List.range s.length).any fun g =>
        i + 1 < g && decide (s.get? g = some '>') &&
          (sliceChars s (i + 1) g).all (· ≠ '>') &&
          ((List.range (s.length + 1)).any fun h =>
            g < h && (sliceChars s (g + 1) h).all (· ≠ '\n') &&
              decide (s.get? h = some '<') &&
              decide (s.get? (h + 1) = some '/') &&
              ((wordPlus (s.drop (h + 2))).bind (litChar '>')).isSome))

/-- After `<` and `\w+` and `\s+`: regex `[^>]*/>` — succeeds exactly when
the first `>` of the remainder is immediately preceded by `/`. -/
def selfCloseScan : List Char → Bool
  | '/' :: '>' :: _ => true
  | '>' :: _ => false
  | _ :: r => selfCloseScan r
  | [] => false

/-- Regex `<\w+\s+[^>]*/>`. -/
def htmlSelfClose (s : List Char) : Bool :=
  (List.range s.length).any fun i =>
    decide (s.get? i = some '<') &&
      (match (wordPlus (s.drop (i + 1))).bind spacePlus with
       | some rest => selfCloseScan rest
       | none => false)

/-- Regex `<\w+[^>]*>.*</\w+>|<\w+\s+[^>]*/>` (the HTML/XML pattern). -/
def hasHtmlTag (l : List Char) : Bool :=
  htmlOpenClose l || htmlSelfClose l

/-- Model of `ContextAnalyzer._contains_code`: any of the six
case-insensitive code-indicator patterns matches. -/
def contains_code (content : String) : Bool :=
  let l := (pyLower content).data
  containsSub l "```".data ||
    hasInlineCode l ||
    hasDeclKeyword l ||
    hasSqlPattern l ||
    hasJsonValue l ||
    hasHtmlTag l

/-! ### Token estimation (`token_estimation.py`, `ModelTokenEstimator`)

The estimator is modelled as a pure function: the instance-level
`estimation_cache` (keyed by the first 100 characters of the text) is
modelled as transparent, which is exact for texts shorter than 100
characters — the only texts the verified claims evaluate it on. -/

/-- Regex `def\s+\w+\(` (note: no word boundary and no `\s*`, unlike the
analyzer's declaration pattern). -/
def hasDefCall (l : List Char) : Bool :=
  scanLit "def".data
    (fun r => (((spacePlus r).bind wordPlus).bind (litChar '(')).isSome) l

/-- Regex `from\s+\w+\s+import`. -/
def hasFromImport (l : List Char) : Bool :=
  scanLit "from".data
    (fun r =>
      ((((spacePlus r).bind wordPlus).bind spacePlus).bind
        (lit "import".data)).isSome) l

/-- Regex `<\w+[^>]*>`: an opening tag. -/
def hasOpenTag (s : List Char) : Bool :=
  (List.range s.length).any fun i =>
    decide (s.get? i = some '<') &&
      (match s.get? (i + 1) with
       | some c => pyIsWordChar c
       | none => false) &&
      ((List.range s.length).any fun g =>
        i + 1 < g && decide (s.get? g = some '>') &&
          (sliceChars s (i + 1) g).all (· ≠ '>'))

/-- Regex `\w+\(\)`. -/
def hasCallParens : List Char → Bool
  | [] => false
  | c :: r => (pyIsWordChar c && "()".data.isPrefixOf r) || hasCallParens r

/-- The code indicators of `ModelTokenEstimator._detect_content_type`,
searched case-SENSITIVELY against the original text (no `re.IGNORECASE`
there, unlike `_contains_code`). -/
def estimatorCodeIndicators (t : List Char) : Bool :=
  containsSub t "```".data ||
    hasDefCall t ||
    scanLit "class".data afterKwSpaceWord t ||
    scanLit "function".data afterKwSpaceWord t ||
    scanLit "import".data afterKwSpaceWord t ||
    hasFromImport t ||
    hasOpenTag t ||
    hasJsonColon t ||
    hasCallParens t ||
    containsSub t "console.log".data ||
    containsSub t "print(".data

/-- Model of `ModelTokenEstimator._detect_content_type`. -/
def detect_content_type (text : String) : String :=
  let t := text.data
  let tl := (pyLower text).data
  if estimatorCodeIndicators t then "code"
  else if (["api", "json", "xml", "sql", "database", "server"]).any
      (fun w => containsSub tl w.data) then "technical"
  else
    let has_math_keywords :=
      (["calculate", "equation", "solve", "formula"]).any
        (fun w => containsSub tl w.data)
    let has_math_operators :=
      t.any fun c => c = '+' || c = '-' || c = '*' || c = '/' || c = '='
    let digits := (t.filter Char.isDigit).length
    if (has_math_keywords && digits ≥ 2) ||
        (has_math_operators && digits ≥ 3) then "mathematical"
    else "natural_language"

/-- Model of `ModelTokenEstimator._detect_language` (code-point range
checks, in source order). -/
def detect_language (text : String) : String :=
  let any2 (lo hi : Nat) : Bool :=
    text.data.any fun c => lo ≤ c.toNat && c.toNat ≤ hi
  if any2 0x4e00 0x9fff then "chinese"
  else if (any2 0x3040 0x309f || any2 0x30a0 0x30ff) then "japanese"
  else if any2 0xac00 0xd7af then "korean"
  else if any2 0x600 0x6ff then "arabic"
  else if any2 0x400 0x4ff then "russian"
  else "english"

/-- `ModelTokenEstimator.MODEL_RATIOS`, in dict insertion order. -/
def MODEL_RATIOS : List (String × ℚ) :=
  [("llama", 3.8), ("llama2", 3.8), ("llama3", 3.7), ("llama3.2", 3.7),
   ("mistral", 4), ("mixtral", 4), ("phi", 4.2), ("gemma", 3.9),
   ("qwen", 3.5), ("deepseek", 3.6), ("default", 4)]

/-- Model of `ModelTokenEstimator._get_model_ratio`: exact match on the
lower-cased name, else the longest key contained in it (first wins on equal
length, per dict iteration order), else the default 4.0.  `None` and the
empty string are both falsy in `if not model_name`. -/
def get_model_ratio (model_name : Option String) : ℚ :=
  match model_name with
  | none => 4
  | some "" => 4
  | some m =>
    let ml := pyLower m
    match MODEL_RATIOS.lookup ml with
    | some r => r
    | none =>
      let best := MODEL_RATIOS.foldl
        (fun acc kv =>
          if kv.1 ≠ "default" && containsSub ml.data kv.1.data &&
              decide (acc.1 < kv.1.length) then (kv.1.length, some kv.2)
          else acc)
        ((0 : Nat), (none : Option ℚ))
      match best.2 with
      | some r => r
      | none => 4

/-- `ModelTokenEstimator.LANGUAGE_ADJUSTMENTS` lookup (default 1.0). -/
def language_adjustment : String → ℚ
  | "chinese" => 0.7
  | "japanese" => 0.8
  | "korean" => 0.8
  | "arabic" => 0.9
  | "russian" => 0.9
  | "code" => 1.2
  | "english" => 1
  | _ => 1

/-- Model of `ModelTokenEstimator._apply_content_adjustments`. -/
def apply_content_adjustments (base_tokens : ℚ) (content_type : String) : ℚ :=
  if content_type = "code" then base_tokens * 1.15
  else if content_type = "technical" then base_tokens * 1.05
  else if content_type = "mathematical" then base_tokens * 0.95
  else base_tokens

/-- Python 3 `round()` to an integer: round half to even. -/
def pyRound (q : ℚ) : ℤ :=
  let f := ⌊q⌋
  let frac := q - f
  if frac < 1 / 2 then f
  else if 1 / 2 < frac then f + 1
  else if f % 2 = 0 then f
  else f + 1

/-- Model of the module-level `estimate_tokens(text, model_name=None)` /
`ModelTokenEstimator.estimate_tokens(...).estimated_tokens`: 0 for the
empty text, otherwise `max(1, round(adjusted))` of the ratio-based
estimate. -/
def estimate_tokens (text : String) (model_name : Option String := none) :
    Nat :=
  if text = "" then 0
  else
    let char_count := text.length
    let model_ratio := get_model_ratio model_name
    let content_type := detect_content_type text
    let language := detect_language text
    let adjusted_ratio := model_ratio * language_adjustment language
    let base_tokens : ℚ := max 1 ((char_count : ℚ) / adjusted_ratio)
    let adjusted_tokens := apply_content_adjustments base_tokens content_type
    (max 1 (pyRound adjusted_tokens)).toNat

/-- Model of `ModelTokenEstimator._estimate_role_overhead` — the fixed
per-role table (used by `estimate_conversation_tokens`, NOT by the
analyzer's `_estimate_message_tokens`). -/
def estimate_role_overhead (role : String) : Nat :=
  match role with
  | "system" => 8
  | "user" => 4
  | "assistant" => 6
  | "function" => 10
  | "tool" => 8
  | _ => 5

/-! ### Messages and the context analyzer (`context_analyzer.py`) -/

/-- One conversation message (a Python dict with keys `role`, `content`,
optional `timestamp`, optional `is_summary`; `msg.get('content','')` /
`msg.get('role','')` defaults are absorbed into total fields). -/
structure Message where
  role : String
  content : String
  timestamp : Option String := none
  is_summary : Bool := false
deriving DecidableEq, Repr

/-- The `important_keywords` list of `analyze_message_importance`. -/
def important_keywords : List String :=
  ["error", "bug", "fix", "solution", "important", "critical"]

/-- The `generic_patterns` list of `analyze_message_importance`. -/
def generic_patterns : List String :=
  ["general response", "just a", "number"]

/-- The sequential `importance += …` accumulation of
`ContextAnalyzer.analyze_message_importance`, written as one sum (each
source step adds or subtracts a constant, so the accumulated value is the
sum of the base score and the individual bonuses/penalty): base 0.3 for
the assistant role else 0.5; recency boost `max(0, 1 - pos/20) * 0.2`;
+0.2 for the user role with a further +0.1 when the content is a question;
+0.2 for code; +0.1 for length > 500; +0.15 for an important keyword;
−0.2 for a generic pattern. -/
def importance_raw (message : Message) (position_from_end : Nat) : ℚ :=
  (if message.role = "assistant" then 0.3 else 0.5) +
    max 0 (1 - (position_from_end : ℚ) / 20) * 0.2 +
    (if message.role = "user" then
       if is_question message.content then (0.2 : ℚ) + 0.1 else 0.2
     else 0) +
    (if contains_code message.content then (0.2 : ℚ) else 0) +
    (if message.content.length > 500 then (0.1 : ℚ) else 0) +
    (if important_keywords.any
         (fun k => containsSub (pyLower message.content).data (pyLower k).data)
     then (0.15 : ℚ) else 0) -
    (if generic_patterns.any
         (fun p => containsSub (pyLower message.content).data (pyLower p).data)
     then (0.2 : ℚ) else 0)

/-- Model of `ContextAnalyzer.analyze_message_importance`: the accumulated
score with only the upper bound clamped (`return min(1.0, importance)` —
the source has no lower clamp). -/
def analyze_message_importance (message : Message) (position_from_end : Nat) :
    ℚ :=
  min 1 (importance_raw message position_from_end)

/-- Model of `ContextAnalyzer._estimate_message_tokens`: content tokens,
plus `estimate_tokens(f"Role: {role}\n")` (NOT the fixed
`_estimate_role_overhead` table), plus a 5-token structural overhead. -/
def estimate_message_tokens (message : Message) : Nat :=
  let content_tokens := estimate_tokens message.content
  let role_tokens := estimate_tokens ("Role: " ++ message.role ++ "\n")
  content_tokens + role_tokens + 5

/-- The compression-related configuration dict, `strategies.rolling_window`
sub-dict (`.get` defaults from the source). -/
structure RollingWindowConfig where
  enabled : Bool := true
  window_size : Nat := 10
  importance_threshold : ℚ := 0.3
deriving DecidableEq, Repr

/-- `strategies.intelligent_summary` sub-dict. -/
structure IntelligentSummaryConfig where
  enabled : Bool := false
  summary_length_ratio : ℚ := 0.3
  summarization_model : String := "llama3.2:1b"
deriving DecidableEq, Repr

/-- `strategies.hybrid` sub-dict. -/
structure HybridConfig where
  enabled : Bool := false
  tier1_messages : Nat := 5
  tier2_messages : Nat := 10
  tier3_summary_ratio : ℚ := 0.2
deriving DecidableEq, Repr

/-- The compression configuration dict (defaults as used by the `.get`
calls throughout the analyzer, strategies and engine; count/threshold
values are modelled as naturals). -/
structure CompressionConfig where
  enabled : Bool := false
  trigger_token_threshold : Nat := 3000
  trigger_message_count : Nat := 20
  trigger_utilization_percent : ℚ := 80
  preserve_recent_messages : Nat := 10
  compression_ratio_target : ℚ := 0.4
  strategy : String := "rolling_window"
  cache_enabled : Bool := true
  cache_ttl_hours : Nat := 24
  rolling_window : RollingWindowConfig := {}
  intelligent_summary : IntelligentSummaryConfig := {}
  hybrid : HybridConfig := {}
deriving DecidableEq, Repr

/-- Model of `ContextAnalyzer._should_compress`: note the hard-coded
`80.0` utilization threshold (the configurable
`trigger_utilization_percent` is only read by the engine). -/
def analyzer_should_compress (cfg : CompressionConfig) (message_count : Nat)
    (token_count : Nat) (utilization : ℚ) : Bool :=
  decide (message_count ≥ cfg.trigger_message_count) ||
    decide (token_count ≥ cfg.trigger_token_threshold) ||
    decide (utilization > 80)

/-- The metric fields of `ConversationMetrics` that are functions of the
message list.  The two wall-clock fields of the source dataclass
(`conversation_age_minutes`, `last_activity`, both read off
`datetime.now()` and timestamp parsing) are outside the model; no verified
claim mentions them. -/
structure ConversationMetrics where
  total_messages : Nat
  total_tokens : Nat
  user_messages : Nat
  assistant_messages : Nat
  average_message_length : ℚ
  context_utilization : ℚ
  compression_candidate : Bool
deriving DecidableEq, Repr

/-- Model of `ContextAnalyzer.analyze_conversation` (empty input yields
`_empty_metrics`). -/
def analyze_conversation (cfg : CompressionConfig) (messages : List Message)
    (max_context_tokens : Nat := 4096) : ConversationMetrics :=
  if messages = [] then
    { total_messages := 0, total_tokens := 0, user_messages := 0
      assistant_messages := 0, average_message_length := 0
      context_utilization := 0, compression_candidate := false }
  else
    let user_messages := (messages.filter (fun m => m.role = "user")).length
    let assistant_messages :=
      (messages.filter (fun m => m.role = "assistant")).length
    let total_messages := messages.length
    let total_tokens := (messages.map estimate_message_tokens).sum
    let message_lengths := messages.map (fun m => m.content.length)
    let avg_length : ℚ :=
      (message_lengths.sum : ℚ) / (message_lengths.length : ℚ)
    let context_utilization : ℚ :=
      ((total_tokens : ℚ) / (max_context_tokens : ℚ)) * 100
    { total_messages, total_tokens, user_messages, assistant_messages
      average_message_length := avg_length, context_utilization
      compression_candidate :=
        analyzer_should_compress cfg total_messages total_tokens
          context_utilization }

/-! ### Shared strategy data (`compression_strategies.py`) -/

/-- `CompressionContext` dataclass. -/
structure CompressionContext where
  messages : List Message
  max_context_tokens : Nat
  preserve_recent_count : Nat
  target_compression_ratio : ℚ
  model_name : Option String := none
  conversation_id : Option Nat := none
deriving DecidableEq, Repr

/-- The `preserved_info` dict built by the strategies; each strategy fills
the keys it uses (`.get(k, 0)` reads make absent keys equal to the
defaults). -/
structure PreservedInfo where
  questions_preserved : Nat := 0
  code_preserved : Nat := 0
  recent_preserved : Nat := 0
  critical_loss : Nat := 0
  summary_created : Bool := false
  tier1_count : Nat := 0
  tier2_count : Nat := 0
  tier3_summarized : Bool := false
deriving DecidableEq, Repr

/-- The `metadata` dict attached to a `CompressionResult`, modelled as a
closed sum over the four shapes the source constructs.  `cachedMeta id`
models `{'cached': True, 'cache_id': id}` — a result's metadata carries the
`cached` key exactly when it has this shape. -/
inductive StrategyMetadata where
  | rollingWindowMeta (window_size : Nat) (importance_threshold : ℚ)
      (messages_preserved : Nat) (recent_preserved : Nat)
      (preserved_info : PreservedInfo)
  | intelligentSummaryMeta (summary_length_ratio : ℚ)
      (summarization_model : String) (messages_summarized : Nat)
      (recent_preserved : Nat) (preserved_info : PreservedInfo)
  | hybridMeta (tier1_messages : Nat) (tier2_messages : Nat)
      (tier3_summary_ratio : ℚ) (tier1 : Nat) (tier2 : Nat) (tier3 : Nat)
      (preserved_info : PreservedInfo)
  | cachedMeta (cache_id : Nat)
deriving DecidableEq, Repr

/-- `CompressionResult` dataclass.  `compression_time_ms` is wall-clock
(`int((time.time()-start)*1000)`) and is modelled as 0 for strategy runs. -/
structure CompressionResult where
  compressed_messages : List Message
  original_token_count : Nat
  compressed_token_count : Nat
  compression_ratio : ℚ
  compression_time_ms : Nat
  quality_score : ℚ
  strategy_used : String
  metadata : StrategyMetadata
deriving DecidableEq, Repr

/-- Model of `CompressionStrategy.calculate_quality_score`. -/
def calculate_quality_score (original_messages compressed_messages :
    List Message) (preserved_info : PreservedInfo) : ℚ :=
  if original_messages = [] || compressed_messages = [] then 0
  else
    let q1 : ℚ := 0.5
    let len_ratio : ℚ :=
      (compressed_messages.length : ℚ) / (original_messages.length : ℚ)
    let q2 :=
      if len_ratio < 0.1 then q1 - 0.3
      else if len_ratio < 0.3 then q1 - 0.1
      else if len_ratio > 0.8 then q1 - 0.2
      else q1 + 0.2
    let q3 := if preserved_info.questions_preserved > 0 then q2 + 0.1 else q2
    let q4 := if preserved_info.code_preserved > 0 then q3 + 0.1 else q3
    let q5 := if preserved_info.recent_preserved > 0 then q4 + 0.1 else q4
    let q6 := if preserved_info.critical_loss > 0 then q5 - 0.2 else q5
    max 0 (min 1 q6)

/-- Model of `CompressionStrategy._calculate_tokens`: content tokens only
(no role or structural overhead, unlike the analyzer's per-message
estimate). -/
def calculate_tokens (messages : List Message) : Nat :=
  (messages.map (fun m => estimate_tokens m.content)).sum

/-- Model of `CompressionStrategy._create_compression_hash`: the MD5 hex
digest of `json.dumps([msg.get('content','') for msg in messages],
sort_keys=True)`.  `json.dumps` on a list of strings and MD5 are both
deterministic functions of the ordered content list, so the model keys the
cache by that list itself; MD5 collisions between distinct serializations
are not modelled. -/
def create_compression_hash (messages : List Message) : List String :=
  messages.map (fun m => m.content)

/-- The external collaborators of the summary-capable strategies:
`factory.is_healthy()` (false also covers an exception while obtaining the
factory), `factory.generate_response(...)['response']` with a raised
exception modelled as `.error (str e)`, and `datetime.now().isoformat()`
for the synthetic summary message's timestamp. -/
structure LlmEnv where
  healthy : Bool
  generate : String → Except String String
  nowIso : String

/-! ### Rolling window strategy (`RollingWindowStrategy`) -/

/-- Model of `RollingWindowStrategy.can_compress`. -/
def rolling_window_can_compress (cfg : CompressionConfig)
    (context : CompressionContext) : Bool :=
  cfg.rolling_window.enabled &&
    decide (context.messages.length > cfg.rolling_window.window_size + 2)

/-- Insert into a descending-by-score list, after all entries of score ≥ the
new one — one step of a stable descending sort. -/
def insertDescBy (score : α → ℚ) (x : α) : List α → List α
  | [] => [x]
  | y :: ys =>
    if score y ≥ score x then y :: insertDescBy score x ys else x :: y :: ys

/-- Stable descending sort by score: the model of
`scored_messages.sort(key=lambda x: x[0], reverse=True)` (Python's sort is
stable, and `reverse=True` keeps equal-key entries in original order). -/
def sortDescBy (score : α → ℚ) (l : List α) : List α :=
  l.foldl (fun acc x => insertDescBy score x acc) []

/-- `compressed_tokens / original_tokens if original_tokens > 0 else 1.0` —
the ratio expression every strategy's `compress` computes. -/
def token_ratio (compressed_tokens original_tokens : Nat) : ℚ :=
  if original_tokens > 0 then
    (compressed_tokens : ℚ) / (original_tokens : ℚ)
  else 1

/-- The selection loop of `RollingWindowStrategy.compress`: keep the older
messages of importance ≥ threshold, each scored at position
`len(older_messages) - i - 1` from the end. -/
def rw_kept (cfg : CompressionConfig) (context : CompressionContext) :
    List Message :=
  let older_messages :=
    sliceDropLastPy context.messages context.preserve_recent_count
  older_messages.enum.filterMap fun p =>
    if analyze_message_importance p.2 (older_messages.length - p.1 - 1) ≥
        cfg.rolling_window.importance_threshold then some p.2 else none

/-- The window-size cut of `RollingWindowStrategy.compress`: when more
messages survive the threshold than the window allows, re-score each at
position 0 and keep the top `window_size` (stable descending sort). -/
def rw_important (cfg : CompressionConfig) (context : CompressionContext) :
    List Message :=
  let kept := rw_kept cfg context
  if kept.length > cfg.rolling_window.window_size then
    (sortDescBy (fun m => analyze_message_importance m 0) kept).take
      cfg.rolling_window.window_size
  else kept

/-- The output list of `RollingWindowStrategy.compress`: surviving older
messages, then the recent slice verbatim. -/
def rw_compressed (cfg : CompressionConfig) (context : CompressionContext) :
    List Message :=
  rw_important cfg context ++
    sliceLastPy context.messages context.preserve_recent_count

/-- Model of `RollingWindowStrategy.compress`.  The preserved-content
counters are accumulated in the selection loop, so they count the
threshold survivors (`rw_kept`) — including any message later cut by the
window-size limit. -/
def rolling_window_compress (cfg : CompressionConfig)
    (context : CompressionContext) : CompressionResult :=
  let c := cfg.rolling_window
  let recent_messages := sliceLastPy context.messages context.preserve_recent_count
  let kept := rw_kept cfg context
  let preserved_info : PreservedInfo :=
    { questions_preserved := (kept.filter fun m => is_question m.content).length
      code_preserved := (kept.filter fun m => contains_code m.content).length
      recent_preserved := recent_messages.length
      critical_loss := 0 }
  let compressed_messages := rw_compressed cfg context
  let original_tokens := calculate_tokens context.messages
  let compressed_tokens := calculate_tokens compressed_messages
  { compressed_messages
    original_token_count := original_tokens
    compressed_token_count := compressed_tokens
    compression_ratio := token_ratio compressed_tokens original_tokens
    compression_time_ms := 0
    quality_score :=
      calculate_quality_score context.messages compressed_messages
        preserved_info
    strategy_used := "rolling_window"
    metadata :=
      .rollingWindowMeta c.window_size c.importance_threshold
        (rw_important cfg context).length recent_messages.length
        preserved_info }

/-! ### Intelligent summary strategy (`IntelligentSummaryStrategy`) -/

/-- Model of `IntelligentSummaryStrategy.can_compress`: enabled and the LLM
factory healthy (any exception while reaching the factory is absorbed into
`healthy = false`). -/
def intelligent_summary_can_compress (cfg : CompressionConfig) (env : LlmEnv)
    (_context : CompressionContext) : Bool :=
  cfg.intelligent_summary.enabled && env.healthy

/-- Model of `IntelligentSummaryStrategy._format_messages_for_summary`. -/
def format_messages_for_summary (messages : List Message) : String :=
  String.intercalate "\n\n"
    (messages.map fun m => pyCapitalize m.role ++ ": " ++ m.content)

/-- Python `int()` of a rational: truncation toward zero. -/
def pyInt (q : ℚ) : ℤ :=
  q.num / (q.den : ℤ)

/-- Model of `IntelligentSummaryStrategy._generate_summary`: on any
generator exception the failure text is embedded rather than raised. -/
def generate_summary (env : LlmEnv) (messages : List Message)
    (_model : String) (length_ratio : ℚ) : String :=
  let conversation_text := format_messages_for_summary messages
  let original_length := conversation_text.length
  let target_length := pyInt ((original_length : ℚ) * length_ratio)
  let prompt :=
    "Please provide a concise summary of this conversation in approximately "
      ++ toString target_length ++
      " characters. Focus on key points, decisions, and important information:\n\n"
      ++ conversation_text ++ "\n\nSummary:"
  match env.generate prompt with
  | .error e => "[Summary generation failed: " ++ e ++ "]"
  | .ok response =>
    let summary := pyStrip response
    if "Summary:".data.isPrefixOf summary.data then
      pyStrip ⟨summary.data.drop 8⟩
    else summary

/-- The synthetic summary message `IntelligentSummaryStrategy.compress`
builds when the older slice is non-empty. -/
def is_summary_message (cfg : CompressionConfig) (env : LlmEnv)
    (context : CompressionContext) : Message :=
  { role := "assistant"
    content :=
      "[CONVERSATION SUMMARY]\n" ++
        generate_summary env
          (sliceDropLastPy context.messages context.preserve_recent_count)
          cfg.intelligent_summary.summarization_model
          cfg.intelligent_summary.summary_length_ratio
    timestamp := some env.nowIso
    is_summary := true }

/-- The output list of `IntelligentSummaryStrategy.compress`.  When
`preserve_recent_count = 0` the Python slices make `older_messages`
(`messages[:-0]`) empty and `recent_messages` (`messages[-0:]`) the whole
list, so the output is the input unchanged and no summary is generated. -/
def is_compressed (cfg : CompressionConfig) (env : LlmEnv)
    (context : CompressionContext) : List Message :=
  let recent_messages := sliceLastPy context.messages context.preserve_recent_count
  if sliceDropLastPy context.messages context.preserve_recent_count = [] then
    recent_messages
  else is_summary_message cfg env context :: recent_messages

/-- Model of `IntelligentSummaryStrategy.compress`. -/
def intelligent_summary_compress (cfg : CompressionConfig) (env : LlmEnv)
    (context : CompressionContext) : CompressionResult :=
  let c := cfg.intelligent_summary
  let recent_messages := sliceLastPy context.messages context.preserve_recent_count
  let older_messages := sliceDropLastPy context.messages context.preserve_recent_count
  let compressed_messages := is_compressed cfg env context
  let original_tokens := calculate_tokens context.messages
  let compressed_tokens := calculate_tokens compressed_messages
  let preserved_info : PreservedInfo :=
    { questions_preserved :=
        (recent_messages.filter fun m => is_question m.content).length
      code_preserved :=
        (recent_messages.filter fun m => contains_code m.content).length
      recent_preserved := recent_messages.length
      summary_created := decide (older_messages.length > 0)
      critical_loss := 0 }
  { compressed_messages
    original_token_count := original_tokens
    compressed_token_count := compressed_tokens
    compression_ratio := token_ratio compressed_tokens original_tokens
    compression_time_ms := 0
    quality_score :=
      calculate_quality_score context.messages compressed_messages
        preserved_info
    strategy_used := "intelligent_summary"
    metadata :=
      .intelligentSummaryMeta c.summary_length_ratio c.summarization_model
        older_messages.length recent_messages.length preserved_info }

/-! ### Hybrid strategy (`HybridStrategy`) -/

/-- Model of `HybridStrategy.can_compress`. -/
def hybrid_can_compress (cfg : CompressionConfig)
    (context : CompressionContext) : Bool :=
  cfg.hybrid.enabled &&
    decide (context.messages.length >
      cfg.hybrid.tier1_messages + cfg.hybrid.tier2_messages +
        context.preserve_recent_count)

/-- Tier 1 of `HybridStrategy.compress`: `messages[len - tier1_messages:]`
(the most recent `tier1_messages` messages — sliced by the config value,
not by `preserve_recent_count`). -/
def hybrid_tier1 (cfg : CompressionConfig) (context : CompressionContext) :
    List Message :=
  pySliceFrom context.messages
    ((context.messages.length : ℤ) - cfg.hybrid.tier1_messages)

/-- Tier 2 of `HybridStrategy.compress`:
`messages[tier2_start:tier1_start] if tier2_start >= 0 else []`. -/
def hybrid_tier2 (cfg : CompressionConfig) (context : CompressionContext) :
    List Message :=
  let tier1_start : ℤ :=
    (context.messages.length : ℤ) - cfg.hybrid.tier1_messages
  let tier2_start : ℤ := tier1_start - cfg.hybrid.tier2_messages
  if tier2_start ≥ 0 then pySlice context.messages tier2_start tier1_start
  else []

/-- Tier 3 of `HybridStrategy.compress`:
`messages[:tier3_end] if tier3_end > 0 else []`. -/
def hybrid_tier3 (cfg : CompressionConfig) (context : CompressionContext) :
    List Message :=
  let tier3_end : ℤ :=
    (context.messages.length : ℤ) - cfg.hybrid.tier1_messages -
      cfg.hybrid.tier2_messages
  if tier3_end > 0 then pySliceTo context.messages tier3_end else []

/-- The sub-context `HybridStrategy.compress` hands to the summary strategy
for tier 3 — note `preserve_recent_count := 0`. -/
def hybrid_summary_context (cfg : CompressionConfig)
    (context : CompressionContext) : CompressionContext :=
  { messages := hybrid_tier3 cfg context
    max_context_tokens := context.max_context_tokens
    preserve_recent_count := 0
    target_compression_ratio := cfg.hybrid.tier3_summary_ratio
    model_name := context.model_name
    conversation_id := context.conversation_id }

/-- The sub-context of the rolling-window fallback for tier 3. -/
def hybrid_window_context (cfg : CompressionConfig)
    (context : CompressionContext) : CompressionContext :=
  { messages := hybrid_tier3 cfg context
    max_context_tokens := context.max_context_tokens
    preserve_recent_count := 2
    target_compression_ratio := 0.3
    model_name := context.model_name
    conversation_id := context.conversation_id }

/-- The processed tier-3 portion of the hybrid output.  The `try/except`
fallback around the summary sub-call is unreachable in the model (the
modelled compress is total), so the `can_compress` guard alone selects
between the summary pass and the rolling-window fallback. -/
def hybrid_tier3_part (cfg : CompressionConfig) (env : LlmEnv)
    (context : CompressionContext) : List Message :=
  if hybrid_tier3 cfg context = [] then []
  else if intelligent_summary_can_compress cfg env
      (hybrid_summary_context cfg context) then
    (intelligent_summary_compress cfg env
      (hybrid_summary_context cfg context)).compressed_messages
  else
    (rolling_window_compress cfg
      (hybrid_window_context cfg context)).compressed_messages

/-- The tier-2 survivors: importance (at position 0) at least 0.4. -/
def hybrid_tier2_kept (cfg : CompressionConfig)
    (context : CompressionContext) : List Message :=
  (hybrid_tier2 cfg context).filter fun m =>
    analyze_message_importance m 0 ≥ 0.4

/-- The output list of `HybridStrategy.compress`: processed tier 3, then
the tier-2 survivors, then tier 1 verbatim. -/
def hybrid_compressed (cfg : CompressionConfig) (env : LlmEnv)
    (context : CompressionContext) : List Message :=
  hybrid_tier3_part cfg env context ++ hybrid_tier2_kept cfg context ++
    hybrid_tier1 cfg context

/-- Model of `HybridStrategy.compress`. -/
def hybrid_compress (cfg : CompressionConfig) (env : LlmEnv)
    (context : CompressionContext) : CompressionResult :=
  let c := cfg.hybrid
  let msgs := context.messages
  let tier1 := hybrid_tier1 cfg context
  let tier2 := hybrid_tier2 cfg context
  let tier3 := hybrid_tier3 cfg context
  let tier2_kept := hybrid_tier2_kept cfg context
  let compressed_messages := hybrid_compressed cfg env context
  let preserved_info : PreservedInfo :=
    { questions_preserved :=
        (tier2_kept.filter fun m => is_question m.content).length +
          (tier1.filter fun m => is_question m.content).length
      code_preserved :=
        (tier2_kept.filter fun m => contains_code m.content).length +
          (tier1.filter fun m => contains_code m.content).length
      recent_preserved := tier1.length
      critical_loss := 0
      tier1_count := tier1.length
      tier2_count := tier2_kept.length
      tier3_summarized := decide (tier3.length > 0) }
  let original_tokens := calculate_tokens msgs
  let compressed_tokens := calculate_tokens compressed_messages
  { compressed_messages
    original_token_count := original_tokens
    compressed_token_count := compressed_tokens
    compression_ratio := token_ratio compressed_tokens original_tokens
    compression_time_ms := 0
    quality_score :=
      calculate_quality_score msgs compressed_messages preserved_info
    strategy_used := "hybrid"
    metadata :=
      .hybridMeta c.tier1_messages c.tier2_messages c.tier3_summary_ratio
        tier1.length tier2.length tier3.length preserved_info }

/-! ### Compression engine (`compression_engine.py`)

The SQLite store is modelled as an explicit `EngineDB` value threaded
through the engine functions, with wall-clock time an explicit `now`
parameter in seconds.  Timestamp comparisons in the source are string
comparisons of ISO-ish timestamps; they are modelled numerically, which
agrees with the source on the directions the claims need (a time within
the TTL window always compares as unexpired in both models).

Two `NOT NULL` columns of the schema matter: both
`compression_cache.conversation_id` and
`conversation_compression_stats.conversation_id` are declared `NOT NULL`
(`utils/database.py`), so the engine's `INSERT`s raise
`sqlite3.IntegrityError` when `conversation_id` is `None`; both inserting
functions swallow the exception, so the insert is a silent no-op. -/

/-- One row of `compression_cache`. -/
structure CacheEntry where
  id : Nat
  conversation_id : Nat
  context_hash : List String
  compressed_context : List Message
  original_token_count : Nat
  compressed_token_count : Nat
  compression_strategy : String
  created_at : Nat
  expires_at : Nat
  access_count : Nat
  last_accessed : Nat
deriving DecidableEq, Repr

/-- One row of `conversation_compression_stats` (only the columns the
modelled engine reads back: the conversation id and the timestamp). -/
structure StatsEntry where
  conversation_id : Nat
  compression_timestamp : Nat
deriving DecidableEq, Repr

/-- The database state seen by the engine; `next_id` models the
`AUTOINCREMENT` id of `compression_cache`, and lists are in insertion
order. -/
structure EngineDB where
  cache : List CacheEntry := []
  stats : List StatsEntry := []
  next_id : Nat := 1
deriving DecidableEq, Repr

/-- Python truthiness of the optional conversation id: `None` and `0` are
both falsy in `if conversation_id and ...`. -/
def pyTruthyNat (o : Option Nat) : Bool :=
  match o with
  | none => false
  | some 0 => false
  | some _ => true

/-- Python truthiness of the optional forced strategy name (`None` and `""`
are falsy). -/
def pyTruthyStr (o : Option String) : Bool :=
  match o with
  | none => false
  | some "" => false
  | some _ => true

/-- Model of `CompressionEngine._recently_compressed`: a stats row for this
conversation within the last hour. -/
def recently_compressed (db : EngineDB) (conversation_id : Nat) (now : Nat) :
    Bool :=
  db.stats.any fun e =>
    e.conversation_id = conversation_id &&
      decide (e.compression_timestamp + 3600 > now)

/-- Model of `CompressionEngine.should_compress`.  After the guard clauses
it re-tests the analyzer's triggers in engine order
(tokens, then message count, then the configurable utilization
threshold); if the candidate flag is set but none of the engine's
re-tests fire, control falls through to `(False, "no_triggers")`. -/
def engine_should_compress (cfg : CompressionConfig) (db : EngineDB)
    (now : Nat) (messages : List Message) (conversation_id : Option Nat) :
    Bool × String :=
  if !cfg.enabled then (false, "compression_disabled")
  else if messages = [] then (false, "no_messages")
  else if pyTruthyNat conversation_id &&
      recently_compressed db (conversation_id.getD 0) now then
    (false, "recently_compressed")
  else
    let metrics := analyze_conversation cfg messages
    if metrics.compression_candidate then
      if metrics.total_tokens ≥ cfg.trigger_token_threshold then
        (true, "token_threshold")
      else if metrics.total_messages ≥ cfg.trigger_message_count then
        (true, "message_threshold")
      else if metrics.context_utilization > cfg.trigger_utilization_percent then
        (true, "utilization_threshold")
      else (false, "no_triggers")
    else (false, "no_triggers")

/-- Model of `get_available_strategies` (the per-strategy `enabled` flags;
only `rolling_window` defaults to enabled). -/
def get_available_strategies (cfg : CompressionConfig) : List String :=
  (["rolling_window", "intelligent_summary", "hybrid"]).filter fun n =>
    if n = "rolling_window" then cfg.rolling_window.enabled
    else if n = "intelligent_summary" then cfg.intelligent_summary.enabled
    else cfg.hybrid.enabled

/-- `can_compress` dispatch over strategy names (unknown names cannot
compress — `get_compression_strategy` returns `None` for them). -/
def strategy_can_compress (name : String) (cfg : CompressionConfig)
    (env : LlmEnv) (context : CompressionContext) : Bool :=
  if name = "rolling_window" then rolling_window_can_compress cfg context
  else if name = "intelligent_summary" then
    intelligent_summary_can_compress cfg env context
  else if name = "hybrid" then hybrid_can_compress cfg context
  else false

/-- `compress` dispatch over strategy names (`none` models
`get_compression_strategy` returning `None`). -/
def strategy_compress (name : String) (cfg : CompressionConfig)
    (env : LlmEnv) (context : CompressionContext) :
    Option CompressionResult :=
  if name = "rolling_window" then some (rolling_window_compress cfg context)
  else if name = "intelligent_summary" then
    some (intelligent_summary_compress cfg env context)
  else if name = "hybrid" then some (hybrid_compress cfg env context)
  else none

/-- The `CompressionContext` the engine builds (in both
`_select_best_strategy` — where `max_context_tokens` is the literal 4096 —
and `compress_conversation`). -/
def engine_context (cfg : CompressionConfig) (messages : List Message)
    (max_context_tokens : Nat) (model_name : Option String)
    (conversation_id : Option Nat := none) : CompressionContext :=
  { messages
    max_context_tokens
    preserve_recent_count := cfg.preserve_recent_messages
    target_compression_ratio := cfg.compression_ratio_target
    model_name
    conversation_id }

/-- Model of `CompressionEngine._select_best_strategy`: the configured
preferred strategy if it is available and can compress, else the first
available strategy that can. -/
def select_best_strategy (cfg : CompressionConfig) (env : LlmEnv)
    (messages : List Message) (model_name : Option String) :
    Option String :=
  let available := get_available_strategies cfg
  if available = [] then none
  else
    let ctx := engine_context cfg messages 4096 model_name
    if available.contains cfg.strategy &&
        strategy_can_compress cfg.strategy cfg env ctx then
      some cfg.strategy
    else available.find? fun n => strategy_can_compress n cfg env ctx

/-- Keep the earliest-inserted row among those with maximal `created_at` —
the model of `ORDER BY created_at DESC LIMIT 1` over an insertion-ordered
row list. -/
def pickLatest : List CacheEntry → Option CacheEntry
  | [] => none
  | e :: rest =>
    match pickLatest rest with
    | none => some e
    | some b => if b.created_at > e.created_at then some b else some e

/-- Model of `CompressionEngine._get_cached_compression`.  The access-count
bump is committed before the result row is converted, so when
`original_token_count = 0` the `ZeroDivisionError` building
`compression_ratio` is swallowed and the lookup degrades to a miss — with
the bump already written. -/
def get_cached_compression (db : EngineDB) (now : Nat)
    (messages : List Message) : Option CompressionResult × EngineDB :=
  let h := create_compression_hash messages
  let live := db.cache.filter fun e =>
    e.context_hash = h && decide (e.expires_at > now)
  match pickLatest live with
  | none => (none, db)
  | some row =>
    let db' : EngineDB :=
      { db with
        cache := db.cache.map fun e =>
          if e.id = row.id then
            { e with access_count := e.access_count + 1, last_accessed := now }
          else e }
    if row.original_token_count = 0 then (none, db')
    else
      (some
        { compressed_messages := row.compressed_context
          original_token_count := row.original_token_count
          compressed_token_count := row.compressed_token_count
          compression_ratio :=
            (row.compressed_token_count : ℚ) / (row.original_token_count : ℚ)
          compression_time_ms := 0
          quality_score := 0.8
          strategy_used := row.compression_strategy
          metadata := .cachedMeta row.id },
        db')

/-- Model of `CompressionEngine._cache_compression_result`: a no-op when
`conversation_id` is `None` (the `NOT NULL` column makes the insert raise,
and the exception is swallowed). -/
def cache_compression_result (cfg : CompressionConfig) (db : EngineDB)
    (now : Nat) (result : CompressionResult) (messages : List Message)
    (conversation_id : Option Nat) : EngineDB :=
  match conversation_id with
  | none => db
  | some cid =>
    let entry : CacheEntry :=
      { id := db.next_id
        conversation_id := cid
        context_hash := create_compression_hash messages
        compressed_context := result.compressed_messages
        original_token_count := result.original_token_count
        compressed_token_count := result.compressed_token_count
        compression_strategy := result.strategy_used
        created_at := now
        expires_at := now + cfg.cache_ttl_hours * 3600
        access_count := 0
        last_accessed := now }
    { db with cache := db.cache ++ [entry], next_id := db.next_id + 1 }

/-- Model of `CompressionEngine._log_compression_metrics`: likewise a
silent no-op for a `None` conversation id (`NOT NULL` stats column). -/
def log_compression_metrics (db : EngineDB) (now : Nat)
    (conversation_id : Option Nat) : EngineDB :=
  match conversation_id with
  | none => db
  | some cid =>
    { db with
      stats := db.stats ++ [{ conversation_id := cid
                              compression_timestamp := now }] }

/-- The strategy-execution tail of `compress_conversation`: run the named
strategy, log metrics, cache the result if caching is enabled.  (The
fire-and-forget `_store_performance_metrics` sink is read by no modelled
code and is not modelled.) -/
def run_strategy_and_record (cfg : CompressionConfig) (env : LlmEnv)
    (db : EngineDB) (now : Nat) (messages : List Message)
    (conversation_id : Option Nat) (model_name : Option String)
    (max_context_tokens : Nat) (strategy_name : String) :
    Option CompressionResult × EngineDB :=
  match strategy_compress strategy_name cfg env
      (engine_context cfg messages max_context_tokens model_name
        conversation_id) with
  | none => (none, db)
  | some result =>
    (some result,
      if cfg.cache_enabled then
        cache_compression_result cfg
          (log_compression_metrics db now conversation_id) now result
          messages conversation_id
      else log_compression_metrics db now conversation_id)

/-- Model of `CompressionEngine.compress_conversation`. -/
def compress_conversation (cfg : CompressionConfig) (env : LlmEnv)
    (db : EngineDB) (now : Nat) (messages : List Message)
    (conversation_id : Option Nat) (model_name : Option String)
    (max_context_tokens : Nat := 4096)
    (force_strategy : Option String := none) :
    Option CompressionResult × EngineDB :=
  if messages = [] then (none, db)
  else if !(engine_should_compress cfg db now messages conversation_id).1 &&
      !pyTruthyStr force_strategy then (none, db)
  else
    match
      (if cfg.cache_enabled && !pyTruthyStr force_strategy then
        get_cached_compression db now messages
      else (none, db)) with
    | (some cached_result, db') => (some cached_result, db')
    | (none, db') =>
      match
        (if pyTruthyStr force_strategy then force_strategy
        else select_best_strategy cfg env messages model_name) with
      | none => (none, db')
      | some name =>
        run_strategy_and_record cfg env db' now messages conversation_id
          model_name max_context_tokens name

/-! ## Helper lemmas

Kernel evaluation of concrete `ℚ` computations needs the arithmetic on
`Rat` (sealed irreducible in core) unsealed; this is done per declaration
(`unseal … in`) on the closed evaluation theorems. -/

theorem pySliceIdx_neg {len : Nat} {i : ℤ} (h : i < 0) :
    pySliceIdx len i = len - (-i).toNat := by
  simp [pySliceIdx, h]

theorem pySliceIdx_nonneg {len : Nat} {i : ℤ} (h : 0 ≤ i) :
    pySliceIdx len i = min i.toNat len := by
  simp [pySliceIdx, not_lt.mpr h]

theorem sliceLastPy_zero (l : List α) : sliceLastPy l 0 = l := by
  simp [sliceLastPy, pySliceFrom, pySliceIdx]

theorem sliceLastPy_succ (l : List α) (n : Nat) :
    sliceLastPy l (n + 1) = l.drop (l.length - (n + 1)) := by
  unfold sliceLastPy pySliceFrom
  rw [pySliceIdx_neg (by omega)]
  simp

theorem sliceDropLastPy_zero (l : List α) : sliceDropLastPy l 0 = [] := by
  simp [sliceDropLastPy, pySliceTo, pySliceIdx]

theorem sliceDropLastPy_succ (l : List α) (n : Nat) :
    sliceDropLastPy l (n + 1) = l.take (l.length - (n + 1)) := by
  unfold sliceDropLastPy pySliceTo
  rw [pySliceIdx_neg (by omega)]
  simp

theorem sliceLastPy_ne_nil {l : List α} (n : Nat) (h : l ≠ []) :
    sliceLastPy l n ≠ [] := by
  have hl : 0 < l.length := List.length_pos.mpr h
  cases n with
  | zero => rw [sliceLastPy_zero]; exact h
  | succ n =>
    rw [sliceLastPy_succ]
    intro hc
    have := congrArg List.length hc
    simp only [List.length_drop, List.length_nil] at this
    omega

theorem take_ne_nil_of_pos {l : List α} {k : Nat} (hk : 0 < k) (h : l ≠ []) :
    l.take k ≠ [] := by
  cases l with
  | nil => exact absurd rfl h
  | cons a t => cases k with
    | zero => omega
    | succ k => simp

theorem rolling_window_compress_messages (cfg : CompressionConfig)
    (ctx : CompressionContext) :
    (rolling_window_compress cfg ctx).compressed_messages =
      rw_compressed cfg ctx := rfl

theorem intelligent_summary_compress_messages (cfg : CompressionConfig)
    (env : LlmEnv) (ctx : CompressionContext) :
    (intelligent_summary_compress cfg env ctx).compressed_messages =
      is_compressed cfg env ctx := rfl

theorem hybrid_compress_messages (cfg : CompressionConfig) (env : LlmEnv)
    (ctx : CompressionContext) :
    (hybrid_compress cfg env ctx).compressed_messages =
      hybrid_compressed cfg env ctx := rfl

theorem is_compressed_ne_nil (cfg : CompressionConfig) (env : LlmEnv)
    (ctx : CompressionContext) (h : ctx.messages ≠ []) :
    is_compressed cfg env ctx ≠ [] := by
  unfold is_compressed
  split
  · exact sliceLastPy_ne_nil _ h
  · simp

theorem importance_raw_ge_tenth (m : Message) (pos : Nat) :
    (0.1 : ℚ) ≤ importance_raw m pos := by
  unfold importance_raw
  have hA : (0.3 : ℚ) ≤ if m.role = "assistant" then (0.3 : ℚ) else 0.5 := by
    split <;> norm_num
  have hB : (0 : ℚ) ≤ max 0 (1 - (pos : ℚ) / 20) * 0.2 :=
    mul_nonneg (le_max_left _ _) (by norm_num)
  have hC : (0 : ℚ) ≤
      if m.role = "user" then
        if is_question m.content then (0.2 : ℚ) + 0.1 else 0.2
      else 0 := by
    split
    · split <;> norm_num
    · norm_num
  have hD : (0 : ℚ) ≤ if contains_code m.content then (0.2 : ℚ) else 0 := by
    split <;> norm_num
  have hE : (0 : ℚ) ≤ if m.content.length > 500 then (0.1 : ℚ) else 0 := by
    split <;> norm_num
  have hF : (0 : ℚ) ≤
      if important_keywords.any
          (fun k => containsSub (pyLower m.content).data (pyLower k).data)
      then (0.15 : ℚ) else 0 := by
    split <;> norm_num
  have hG :
      (if generic_patterns.any
           (fun p => containsSub (pyLower m.content).data (pyLower p).data)
       then (0.2 : ℚ) else 0) ≤ 0.2 := by
    split <;> norm_num
  linarith

/-! ## Claim C4 -/

/-- C4: for every message (any role, any content) and every
`position_from_end`, `analyze_message_importance` returns a score in
`[0, 1]`: the upper bound by the explicit `min(1.0, ·)` clamp, the lower
bound by construction (the accumulated value is at least base 0.3 minus the
single 0.2 generic-pattern penalty). -/
theorem C4_importance_score_in_unit_interval (m : Message) (pos : Nat) :
    0 ≤ analyze_message_importance m pos ∧
      analyze_message_importance m pos ≤ 1 := by
  unfold analyze_message_importance
  refine ⟨le_min (by norm_num) ?_, min_le_left _ _⟩
  calc (0 : ℚ) ≤ 0.1 := by norm_num
    _ ≤ importance_raw m pos := importance_raw_ge_tenth m pos

/-! ## Claim C10 -/

/-- C10: with `preserve_recent_count = 0`, both
`RollingWindowStrategy.compress` and `IntelligentSummaryStrategy.compress`
return the input message list unchanged on any non-empty input:
`messages[-0:]` is the whole list and `messages[:-0]` is empty, so the
older slice is empty, nothing is dropped, and no summary message is
created. -/
theorem C10_preserve_zero_is_identity (cfg : CompressionConfig)
    (env : LlmEnv) (messages : List Message) (maxtok : Nat) (target : ℚ)
    (model : Option String) (cid : Option Nat) (_h : messages ≠ []) :
    (rolling_window_compress cfg
        { messages, max_context_tokens := maxtok, preserve_recent_count := 0
          target_compression_ratio := target, model_name := model
          conversation_id := cid }).compressed_messages = messages ∧
    (intelligent_summary_compress cfg env
        { messages, max_context_tokens := maxtok, preserve_recent_count := 0
          target_compression_ratio := target, model_name := model
          conversation_id := cid }).compressed_messages = messages := by
  constructor
  · rw [rolling_window_compress_messages]
    unfold rw_compressed rw_important rw_kept
    simp [sliceDropLastPy_zero, sliceLastPy_zero]
  · rw [intelligent_summary_compress_messages]
    unfold is_compressed
    simp [sliceDropLastPy_zero, sliceLastPy_zero]

def c10messages : List Message :=
  [{ role := "user", content := "hi" }, { role := "assistant", content := "ok" }]

def c10env : LlmEnv :=
  { healthy := false, generate := fun _ => Except.error "down", nowIso := "TS" }

theorem C10_witness :
    c10messages ≠ [] ∧
    (rolling_window_compress {}
        { messages := c10messages, max_context_tokens := 4096
          preserve_recent_count := 0, target_compression_ratio := 0.4
          model_name := none
          conversation_id := none }).compressed_messages = c10messages ∧
    (intelligent_summary_compress {} c10env
        { messages := c10messages, max_context_tokens := 4096
          preserve_recent_count := 0, target_compression_ratio := 0.4
          model_name := none
          conversation_id := none }).compressed_messages = c10messages := by
  refine ⟨by decide, ?_, ?_⟩
  · exact (C10_preserve_zero_is_identity {} c10env c10messages 4096 0.4 none
      none (by decide)).1
  · exact (C10_preserve_zero_is_identity {} c10env c10messages 4096 0.4 none
      none (by decide)).2

/-! ## Claim C5 -/

unseal Nat.gcd Rat.add Rat.mul Rat.inv Rat.sub Rat.ofScientific in
/-- C5 (counterexample): for the message `{role: 'user', content: ''}` the
analyzer's per-message estimate is `0 + estimate_tokens("Role: user\n") + 5
= 8`, not the `0 + 5 + 4 = 9` the claim's fixed role-overhead table
predicts. -/
theorem C5_counterexample :
    estimate_message_tokens { role := "user", content := "" } = 8 ∧
    estimate_tokens "" none + 5 + estimate_role_overhead "user" = 9 ∧
    estimate_message_tokens { role := "user", content := "" } ≠
      estimate_tokens "" none + 5 + estimate_role_overhead "user" := by
  refine ⟨by decide, by decide, by decide⟩

unseal Nat.gcd Rat.add Rat.mul Rat.inv Rat.sub Rat.ofScientific in
/-- C5 (amended): the analyzer's per-message estimate is the estimator's
count for the content, plus 5, plus the estimator's count of the literal
string `"Role: {role}\n"` — under the default model ratio that role-label
overhead is 3 for `user`/`system`/`tool`, 4 for `assistant`/`function`
(the fixed 8/4/6/10/8-with-default-5 table belongs to
`ModelTokenEstimator._estimate_role_overhead`, which only
`estimate_conversation_tokens` uses). -/
theorem C5_amended_role_overhead (m : Message) :
    estimate_message_tokens m =
      estimate_tokens m.content + estimate_tokens ("Role: " ++ m.role ++ "\n")
        + 5 ∧
    estimate_tokens "Role: user\n" = 3 ∧
    estimate_tokens "Role: system\n" = 3 ∧
    estimate_tokens "Role: assistant\n" = 4 ∧
    estimate_tokens "Role: function\n" = 4 ∧
    estimate_tokens "Role: tool\n" = 3 := by
  refine ⟨rfl, by decide, by decide, by decide, by decide, by decide⟩

/-! ## Claim C9 -/

/-- C9: when the external generator fails (raises), the Intelligent
Summary compress still returns a result (the modelled function is total
exactly because `_generate_summary` catches the exception): the synthetic
summary message records the failure reason behind the
`[Summary generation failed: …]` marker inside the `[CONVERSATION
SUMMARY]` prefix, and the recent slice follows intact. -/
theorem C9_generator_failure_degrades (cfg : CompressionConfig)
    (env : LlmEnv) (ctx : CompressionContext) (err : String)
    (hgen : ∀ s, env.generate s = Except.error err)
    (holder : sliceDropLastPy ctx.messages ctx.preserve_recent_count ≠ []) :
    (intelligent_summary_compress cfg env ctx).compressed_messages =
      { role := "assistant"
        content :=
          "[CONVERSATION SUMMARY]\n[Summary generation failed: " ++ err ++ "]"
        timestamp := some env.nowIso
        is_summary := true } ::
        sliceLastPy ctx.messages ctx.preserve_recent_count := by
  rw [intelligent_summary_compress_messages]
  unfold is_compressed
  rw [if_neg holder]
  unfold is_summary_message generate_summary
  simp only [hgen, String.append_assoc]
  rfl

def c9messages : List Message :=
  [{ role := "user", content := "question one" },
   { role := "assistant", content := "answer one" },
   { role := "user", content := "question two" }]

def c9env : LlmEnv :=
  { healthy := true, generate := fun _ => Except.error "boom", nowIso := "TS" }

def c9ctx : CompressionContext :=
  { messages := c9messages, max_context_tokens := 4096
    preserve_recent_count := 1, target_compression_ratio := 0.4 }

theorem C9_witness :
    (∀ s, c9env.generate s = Except.error "boom") ∧
    sliceDropLastPy c9messages 1 ≠ [] ∧
    (intelligent_summary_compress {} c9env c9ctx).compressed_messages =
      { role := "assistant"
        content := "[CONVERSATION SUMMARY]\n[Summary generation failed: boom]"
        timestamp := some "TS"
        is_summary := true } ::
        [{ role := "user", content := "question two" }] := by
  refine ⟨fun _ => rfl, by decide, ?_⟩
  rw [C9_generator_failure_degrades {} c9env c9ctx "boom" (fun _ => rfl)
    (by decide)]
  rfl

/-! ## Claim C6 -/

/-- The ratio contract the (amended) claim states of one strategy result:
`compressed / max(1, original)` when `original > 0`, and the fixed value
1.0 when `original = 0`. -/
def ratio_spec (r : CompressionResult) : Prop :=
  (0 < r.original_token_count →
    r.compression_ratio =
      (r.compressed_token_count : ℚ) /
        ((max 1 r.original_token_count : Nat) : ℚ)) ∧
  (r.original_token_count = 0 → r.compression_ratio = 1)

theorem token_ratio_contract (c o : Nat) :
    (0 < o → token_ratio c o = (c : ℚ) / ((max 1 o : Nat) : ℚ)) ∧
    (o = 0 → token_ratio c o = 1) := by
  constructor
  · intro h
    unfold token_ratio
    rw [if_pos h, Nat.max_eq_right h]
  · intro h
    subst h
    rfl

theorem ratio_spec_of_token_ratio (r : CompressionResult)
    (h : r.compression_ratio =
      token_ratio r.compressed_token_count r.original_token_count) :
    ratio_spec r := by
  constructor
  · intro ho
    rw [h]
    exact (token_ratio_contract _ _).1 ho
  · intro ho
    rw [h]
    exact (token_ratio_contract _ _).2 ho

/-- C6 (amended): for every result of the three strategies,
`compression_ratio = compressed_tokens / max(1, original_tokens)` whenever
`original_tokens > 0`, and `compression_ratio = 1.0` when
`original_tokens = 0` — in the zero case the ratio is the fixed 1.0, not
the `compressed_tokens / 1` the unconditional formula would give. -/
theorem C6_amended_ratio_contract (cfg : CompressionConfig) (env : LlmEnv)
    (ctx : CompressionContext) :
    ratio_spec (rolling_window_compress cfg ctx) ∧
    ratio_spec (intelligent_summary_compress cfg env ctx) ∧
    ratio_spec (hybrid_compress cfg env ctx) :=
  ⟨ratio_spec_of_token_ratio _ rfl, ratio_spec_of_token_ratio _ rfl,
    ratio_spec_of_token_ratio _ rfl⟩

def c6messages : List Message :=
  (List.range 13).map fun _ => { role := "user", content := "" }

def c6ctx : CompressionContext :=
  { messages := c6messages, max_context_tokens := 4096
    preserve_recent_count := 10, target_compression_ratio := 0.4 }

unseal Nat.gcd Rat.add Rat.mul Rat.inv Rat.sub Rat.ofScientific in
/-- C6 (counterexample): a rolling-window run over 13 messages with empty
contents has `original_tokens = 0`; the source sets its ratio to 1.0,
while the claim's formula `compressed / max(1, original)` gives 0. -/
theorem C6_counterexample :
    (rolling_window_compress {} c6ctx).original_token_count = 0 ∧
    (rolling_window_compress {} c6ctx).compression_ratio = 1 ∧
    ((rolling_window_compress {} c6ctx).compressed_token_count : ℚ) /
        ((max 1 (rolling_window_compress {} c6ctx).original_token_count :
          Nat) : ℚ) = 0 ∧
    (1 : ℚ) ≠ 0 := by
  refine ⟨by decide, by decide, by decide, by norm_num⟩

def c6wmessages : List Message :=
  [{ role := "user", content := "alpha" }, { role := "user", content := "beta" }]

def c6wctx : CompressionContext :=
  { messages := c6wmessages, max_context_tokens := 4096
    preserve_recent_count := 1, target_compression_ratio := 0.4 }

def c6wenv : LlmEnv :=
  { healthy := false, generate := fun _ => Except.error "down", nowIso := "TS" }

unseal Nat.gcd Rat.add Rat.mul Rat.inv Rat.sub Rat.ofScientific in
theorem C6_witness :
    0 < (rolling_window_compress {} c6wctx).original_token_count ∧
    (rolling_window_compress {} c6wctx).compression_ratio =
      ((rolling_window_compress {} c6wctx).compressed_token_count : ℚ) /
        ((max 1 (rolling_window_compress {} c6wctx).original_token_count :
          Nat) : ℚ) ∧
    (rolling_window_compress {} c6ctx).original_token_count = 0 ∧
    (rolling_window_compress {} c6ctx).compression_ratio = 1 :=
  ⟨by decide,
    (C6_amended_ratio_contract {} c6wenv c6wctx).1.1 (by decide),
    by decide,
    ((C6_amended_ratio_contract {} c6wenv c6ctx).1).2 (by decide)⟩

/-! ## Claim C3 -/

/-- The three trigger conditions of the analyzer, spelled out over the raw
metric quantities: message count at least the configured message
threshold, or estimated tokens at least the configured token threshold, or
utilization above the hard-coded 80%. -/
def trigger_conditions (cfg : CompressionConfig) (messages : List Message)
    (max_context_tokens : Nat) : Prop :=
  cfg.trigger_message_count ≤ messages.length ∨
    cfg.trigger_token_threshold ≤ (messages.map estimate_message_tokens).sum ∨
    80 < ((messages.map estimate_message_tokens).sum : ℚ) /
        (max_context_tokens : ℚ) * 100

/-- C3: (a) for a non-empty message list the analyzer's
`compression_candidate` is true iff one of the trigger conditions holds;
(b) when compression is enabled, the list non-empty, the conversation not
recently compressed, and no trigger holds (at the engine's default
4096-token window), `should_compress` returns `(false, "no_triggers")`. -/
theorem C3_triggers_and_no_triggers :
    (∀ (cfg : CompressionConfig) (messages : List Message) (maxtok : Nat),
      messages ≠ [] →
        ((analyze_conversation cfg messages maxtok).compression_candidate =
            true ↔ trigger_conditions cfg messages maxtok)) ∧
    (∀ (cfg : CompressionConfig) (db : EngineDB) (now : Nat)
      (messages : List Message) (cid : Option Nat),
      cfg.enabled = true → messages ≠ [] →
        (pyTruthyNat cid && recently_compressed db (cid.getD 0) now) = false →
        ¬ trigger_conditions cfg messages 4096 →
        engine_should_compress cfg db now messages cid =
          (false, "no_triggers")) := by
  have hcand : ∀ (cfg : CompressionConfig) (messages : List Message)
      (maxtok : Nat), messages ≠ [] →
      ((analyze_conversation cfg messages maxtok).compression_candidate =
        true ↔ trigger_conditions cfg messages maxtok) := by
    intro cfg messages maxtok h
    unfold analyze_conversation
    rw [if_neg h]
    unfold analyzer_should_compress trigger_conditions
    simp only [Bool.or_eq_true, decide_eq_true_eq, ge_iff_le]
    tauto
  refine ⟨hcand, ?_⟩
  intro cfg db now messages cid he hm hr ht
  unfold engine_should_compress
  rw [he]
  simp only [Bool.not_true, Bool.false_eq_true, if_false]
  rw [if_neg hm, if_neg (by simp [hr])]
  have hc : (analyze_conversation cfg messages).compression_candidate = false := by
    rw [← Bool.not_eq_true]
    intro hcontra
    exact ht ((hcand cfg messages 4096 hm).mp hcontra)
  rw [hc]
  simp

def c3cfg : CompressionConfig := { enabled := true }

def c3messages : List Message :=
  [{ role := "user", content := "hi" }, { role := "assistant", content := "ok" }]

unseal Nat.gcd Rat.add Rat.mul Rat.inv Rat.sub Rat.ofScientific in
theorem C3_witness :
    c3messages ≠ [] ∧
    ((analyze_conversation c3cfg c3messages 4096).compression_candidate =
        true ↔ trigger_conditions c3cfg c3messages 4096) ∧
    engine_should_compress c3cfg {} 0 c3messages none =
      (false, "no_triggers") :=
  ⟨by decide,
    C3_triggers_and_no_triggers.1 c3cfg c3messages 4096 (by decide),
    C3_triggers_and_no_triggers.2 c3cfg {} 0 c3messages none rfl (by decide)
      (by decide) (by unfold trigger_conditions; decide)⟩

/-! ## Claim C1 -/

theorem hybrid_tier1_eq_drop (cfg : CompressionConfig)
    (ctx : CompressionContext)
    (h : cfg.hybrid.tier1_messages ≤ ctx.messages.length) :
    hybrid_tier1 cfg ctx =
      ctx.messages.drop
        (ctx.messages.length - cfg.hybrid.tier1_messages) := by
  unfold hybrid_tier1 pySliceFrom
  rw [pySliceIdx_nonneg (by omega)]
  congr 1
  omega

theorem rw_compressed_ne_nil (cfg : CompressionConfig)
    (ctx : CompressionContext) (h : ctx.messages ≠ []) :
    rw_compressed cfg ctx ≠ [] := by
  unfold rw_compressed
  intro hc
  exact sliceLastPy_ne_nil _ h (List.append_eq_nil.mp hc).2

theorem rw_trailing_suffix (cfg : CompressionConfig)
    (ctx : CompressionContext)
    (_hp : ctx.preserve_recent_count ≤ ctx.messages.length) :
    ctx.messages.drop (ctx.messages.length - ctx.preserve_recent_count) <:+
      rw_compressed cfg ctx := by
  unfold rw_compressed
  cases hn : ctx.preserve_recent_count with
  | zero =>
    simp only [Nat.sub_zero, List.drop_length]
    exact List.nil_suffix
  | succ n =>
    rw [sliceLastPy_succ]
    exact List.suffix_append _ _

theorem hybrid_compressed_ne_nil (cfg : CompressionConfig) (env : LlmEnv)
    (ctx : CompressionContext) (h : hybrid_can_compress cfg ctx = true) :
    hybrid_compressed cfg env ctx ≠ [] := by
  have hlen : cfg.hybrid.tier1_messages + cfg.hybrid.tier2_messages +
      ctx.preserve_recent_count < ctx.messages.length := by
    unfold hybrid_can_compress at h
    simp only [Bool.and_eq_true, decide_eq_true_eq] at h
    exact h.2
  have hmsgs : ctx.messages ≠ [] := by
    intro hc
    rw [hc] at hlen
    simp at hlen
  intro hc
  unfold hybrid_compressed at hc
  rcases List.append_eq_nil.mp hc with ⟨h12, h3⟩
  rcases List.append_eq_nil.mp h12 with ⟨hA, -⟩
  cases ht1 : cfg.hybrid.tier1_messages with
  | succ n =>
    rw [hybrid_tier1_eq_drop cfg ctx (by omega)] at h3
    have := congrArg List.length h3
    simp only [List.length_drop, List.length_nil] at this
    omega
  | zero =>
    have htier3 : hybrid_tier3 cfg ctx ≠ [] := by
      unfold hybrid_tier3
      rw [if_pos (by omega)]
      unfold pySliceTo
      rw [pySliceIdx_nonneg (by omega)]
      apply take_ne_nil_of_pos _ hmsgs
      have h0 : 0 < ctx.messages.length := List.length_pos.mpr hmsgs
      omega
    unfold hybrid_tier3_part at hA
    rw [if_neg htier3] at hA
    split at hA
    · rw [intelligent_summary_compress_messages] at hA
      unfold is_compressed hybrid_summary_context at hA
      simp only [sliceDropLastPy_zero, sliceLastPy_zero, if_pos] at hA
      exact htier3 hA
    · rw [rolling_window_compress_messages] at hA
      exact rw_compressed_ne_nil cfg _ htier3 hA

theorem hybrid_trailing_tier1_suffix (cfg : CompressionConfig)
    (env : LlmEnv) (ctx : CompressionContext)
    (h : cfg.hybrid.tier1_messages ≤ ctx.messages.length) :
    ctx.messages.drop (ctx.messages.length - cfg.hybrid.tier1_messages) <:+
      hybrid_compressed cfg env ctx := by
  unfold hybrid_compressed
  rw [← hybrid_tier1_eq_drop cfg ctx h]
  exact List.suffix_append _ _

/-- C1 (amended): for every accepted context, all three strategies return a
non-empty output on non-empty input, and the trailing
`preserve_recent_count` input messages are a verbatim suffix of the
Rolling-Window output; the Hybrid output instead ends with the trailing
`tier1_messages` (config tier-1 count) input messages — its tier 2, which
can overlap the preserve window, is importance-filtered, so the trailing
`preserve_recent_count` messages need not all survive. -/
theorem C1_amended_nonempty_and_suffix (cfg : CompressionConfig)
    (env : LlmEnv) (ctx : CompressionContext) :
    (rolling_window_can_compress cfg ctx = true →
      ctx.preserve_recent_count ≤ ctx.messages.length →
      (rolling_window_compress cfg ctx).compressed_messages ≠ [] ∧
      ctx.messages.drop
          (ctx.messages.length - ctx.preserve_recent_count) <:+
        (rolling_window_compress cfg ctx).compressed_messages) ∧
    (ctx.messages ≠ [] →
      (intelligent_summary_compress cfg env ctx).compressed_messages ≠ []) ∧
    (hybrid_can_compress cfg ctx = true →
      (hybrid_compress cfg env ctx).compressed_messages ≠ [] ∧
      ctx.messages.drop
          (ctx.messages.length - cfg.hybrid.tier1_messages) <:+
        (hybrid_compress cfg env ctx).compressed_messages) := by
  refine ⟨?_, ?_, ?_⟩
  · intro hcan hp
    have hmsgs : ctx.messages ≠ [] := by
      unfold rolling_window_can_compress at hcan
      simp only [Bool.and_eq_true, decide_eq_true_eq] at hcan
      intro hc
      rw [hc] at hcan
      simp at hcan
    rw [rolling_window_compress_messages]
    exact ⟨rw_compressed_ne_nil cfg ctx hmsgs, rw_trailing_suffix cfg ctx hp⟩
  · intro hmsgs
    rw [intelligent_summary_compress_messages]
    exact is_compressed_ne_nil cfg env ctx hmsgs
  · intro hcan
    have hlen : cfg.hybrid.tier1_messages + cfg.hybrid.tier2_messages +
        ctx.preserve_recent_count < ctx.messages.length := by
      unfold hybrid_can_compress at hcan
      simp only [Bool.and_eq_true, decide_eq_true_eq] at hcan
      exact hcan.2
    rw [hybrid_compress_messages]
    exact ⟨hybrid_compressed_ne_nil cfg env ctx hcan,
      hybrid_trailing_tier1_suffix cfg env ctx (by omega)⟩

def c1messages : List Message :=
  (List.range 26).map fun i =>
    if i = 16 then { role := "assistant", content := "just a" }
    else { role := "user", content := "m" ++ toString i }

def c1cfg : CompressionConfig :=
  { enabled := true, hybrid := { enabled := true } }

def c1env : LlmEnv :=
  { healthy := false, generate := fun _ => Except.error "down", nowIso := "TS" }

def c1ctx : CompressionContext :=
  { messages := c1messages, max_context_tokens := 4096
    preserve_recent_count := 10, target_compression_ratio := 0.4 }

unseal Nat.gcd Rat.add Rat.mul Rat.inv Rat.sub Rat.ofScientific in
/-- C1 (counterexample): a context the Hybrid strategy accepts (26
messages, default tiers 5/10, `preserve_recent_count = 10`) in which the
assistant message `"just a"` at index 16 — inside the trailing preserve
window but in tier 2 — scores 0.3 < 0.4 and is filtered out, so the
trailing 10 input messages are NOT a suffix of the Hybrid output. -/
theorem C1_counterexample :
    hybrid_can_compress c1cfg c1ctx = true ∧
    c1ctx.preserve_recent_count ≤ c1ctx.messages.length ∧
    ¬ (c1ctx.messages.drop
          (c1ctx.messages.length - c1ctx.preserve_recent_count) <:+
        (hybrid_compress c1cfg c1env c1ctx).compressed_messages) := by
  refine ⟨by decide, by decide, by decide⟩

def c1wmessages : List Message :=
  (List.range 13).map fun i => { role := "user", content := "w" ++ toString i }

def c1wctx : CompressionContext :=
  { messages := c1wmessages, max_context_tokens := 4096
    preserve_recent_count := 10, target_compression_ratio := 0.4 }

theorem C1_witness :
    (rolling_window_can_compress {} c1wctx = true ∧
      c1wctx.preserve_recent_count ≤ c1wctx.messages.length ∧
      (rolling_window_compress {} c1wctx).compressed_messages ≠ [] ∧
      c1wctx.messages.drop
          (c1wctx.messages.length - c1wctx.preserve_recent_count) <:+
        (rolling_window_compress {} c1wctx).compressed_messages) ∧
    (c1wctx.messages ≠ [] ∧
      (intelligent_summary_compress {} c1env c1wctx).compressed_messages ≠
        []) ∧
    (hybrid_can_compress c1cfg c1ctx = true ∧
      (hybrid_compress c1cfg c1env c1ctx).compressed_messages ≠ [] ∧
      c1ctx.messages.drop
          (c1ctx.messages.length - c1cfg.hybrid.tier1_messages) <:+
        (hybrid_compress c1cfg c1env c1ctx).compressed_messages) := by
  have hrw := (C1_amended_nonempty_and_suffix {} c1env c1wctx).1 (by decide)
    (by decide)
  have his := (C1_amended_nonempty_and_suffix {} c1env c1wctx).2.1 (by decide)
  have hhy := (C1_amended_nonempty_and_suffix c1cfg c1env c1ctx).2.2
    (by decide)
  exact ⟨⟨by decide, by decide, hrw.1, hrw.2⟩, ⟨by decide, his⟩,
    ⟨by decide, hhy.1, hhy.2⟩⟩

/-! ## Claim C2 -/

/-- Development lemma: whenever the Hybrid strategy hands tier 3 to the
Intelligent Summary strategy, the sub-call is the identity — its context
has `preserve_recent_count = 0`, so `messages[:-0]` is empty, nothing is
summarized, and tier 3 passes through verbatim. -/
theorem hybrid_tier3_summary_pass_is_identity (cfg : CompressionConfig)
    (env : LlmEnv) (ctx : CompressionContext)
    (hcan : intelligent_summary_can_compress cfg env
      (hybrid_summary_context cfg ctx) = true) :
    hybrid_tier3_part cfg env ctx = hybrid_tier3 cfg ctx := by
  unfold hybrid_tier3_part
  split
  · rename_i ht
    exact ht.symm
  · rw [intelligent_summary_compress_messages]
    unfold is_compressed hybrid_summary_context
    simp [sliceDropLastPy_zero, sliceLastPy_zero]

def c2messages : List Message :=
  (List.range 26).map fun i => { role := "user", content := "m" ++ toString i }

def c2cfg : CompressionConfig :=
  { enabled := true, hybrid := { enabled := true }
    intelligent_summary := { enabled := true } }

def c2env : LlmEnv :=
  { healthy := true, generate := fun _ => Except.ok "the gist", nowIso := "TS" }

def c2ctx : CompressionContext :=
  { messages := c2messages, max_context_tokens := 4096
    preserve_recent_count := 10, target_compression_ratio := 0.4 }

unseal Nat.gcd Rat.add Rat.mul Rat.inv Rat.sub Rat.ofScientific in
/-- C2 (code behaviour at the failing input): on a 26-message hybrid
context with the summary strategy enabled and the backend healthy, tier 3
(the oldest 11 messages) is returned verbatim by the summary sub-call —
`preserve_recent_count = 0` makes `messages[:-0]` empty — and no message
of the final output carries `is_summary`, contradicting the claimed
single-summary-message replacement (and the strategy's own
`tier3_summarized` metadata flag). -/
theorem C2_tier3_not_summarized :
    intelligent_summary_can_compress c2cfg c2env
        (hybrid_summary_context c2cfg c2ctx) = true ∧
    hybrid_tier3 c2cfg c2ctx = c2messages.take 11 ∧
    c2messages.take 11 ≠ [] ∧
    hybrid_tier3_part c2cfg c2env c2ctx = c2messages.take 11 ∧
    (hybrid_compress c2cfg c2env c2ctx).compressed_messages.all
        (fun m => !m.is_summary) = true := by
  refine ⟨by decide, by decide, by decide, by decide, by decide⟩

/-! ## Claim C8 -/

/-- `true` exactly when a result's metadata carries the `cached` marker
(the `{'cached': True, 'cache_id': …}` shape). -/
def result_is_cached (r : CompressionResult) : Bool :=
  match r.metadata with
  | .cachedMeta _ => true
  | _ => false

theorem get_cached_compression_empty (db : EngineDB) (now : Nat)
    (messages : List Message) (h : db.cache = []) :
    get_cached_compression db now messages = (none, db) := by
  unfold get_cached_compression
  rw [h]
  rfl

theorem engine_should_compress_cid_zero (cfg : CompressionConfig)
    (db db' : EngineDB) (now now' : Nat) (messages : List Message) :
    engine_should_compress cfg db now messages (some 0) =
      engine_should_compress cfg db' now' messages (some 0) := rfl

theorem get_cached_compression_single (db : EngineDB) (now : Nat)
    (messages : List Message) (e : CacheEntry) (hdb : db.cache = [e])
    (hhash : e.context_hash = create_compression_hash messages)
    (hexp : now < e.expires_at) (horig : 0 < e.original_token_count) :
    get_cached_compression db now messages =
      (some
        { compressed_messages := e.compressed_context
          original_token_count := e.original_token_count
          compressed_token_count := e.compressed_token_count
          compression_ratio :=
            (e.compressed_token_count : ℚ) / (e.original_token_count : ℚ)
          compression_time_ms := 0
          quality_score := 0.8
          strategy_used := e.compression_strategy
          metadata := .cachedMeta e.id },
       { db with
         cache :=
           [{ e with access_count := e.access_count + 1
                     last_accessed := now }] }) := by
  unfold get_cached_compression
  rw [hdb]
  have hcond :
      (decide (e.context_hash = create_compression_hash messages) &&
        decide (e.expires_at > now)) = true := by
    simp [hhash, hexp]
  simp only [List.filter, hcond, pickLatest]
  rw [if_neg (by omega)]
  simp

/-- C8 (amended): with caching enabled, no forced strategy, an empty cache,
and `conversation_id = 0` — the only conversation id that both survives
the `NOT NULL` cache insert and is falsy for the recently-compressed guard
— a second `compress_conversation` call on the same messages within the
TTL window is served from the cache: the compressed message list is
byte-identical to the first result's, no new cache entry is created, and
the entry's access count is bumped; but the served result differs beyond a
`cached` marker — `compression_time_ms` is 0, `quality_score` is the fixed
0.8, and the metadata is replaced by `{cached, cache_id}`. -/
theorem C8_amended_cache_round_trip (cfg : CompressionConfig) (env : LlmEnv)
    (db0 db1 : EngineDB) (now1 now2 : Nat) (messages : List Message)
    (model : Option String) (r1 : CompressionResult)
    (hcache : cfg.cache_enabled = true)
    (hdb : db0.cache = [])
    (h1 : compress_conversation cfg env db0 now1 messages (some 0) model 4096
        none = (some r1, db1))
    (httl : now2 < now1 + cfg.cache_ttl_hours * 3600)
    (horig : 0 < r1.original_token_count) :
    ((compress_conversation cfg env db1 now2 messages (some 0) model 4096
          none).1.map (fun r => r.compressed_messages) =
        some r1.compressed_messages) ∧
    ((compress_conversation cfg env db1 now2 messages (some 0) model 4096
          none).1.map (fun r => r.quality_score) = some 0.8) ∧
    ((compress_conversation cfg env db1 now2 messages (some 0) model 4096
          none).1.map (fun r => r.compression_time_ms) = some 0) ∧
    ((compress_conversation cfg env db1 now2 messages (some 0) model 4096
          none).1.map (fun r => result_is_cached r) = some true) ∧
    ((compress_conversation cfg env db1 now2 messages (some 0) model 4096
          none).2.cache.length = db1.cache.length) ∧
    (((compress_conversation cfg env db1 now2 messages (some 0) model 4096
          none).2.cache.map (fun e => e.access_count)).sum =
      (db1.cache.map (fun e => e.access_count)).sum + 1) := by
  have hmsgs : messages ≠ [] := by
    intro hc
    subst hc
    unfold compress_conversation at h1
    simp at h1
  -- invert the first call
  unfold compress_conversation at h1
  rw [if_neg hmsgs] at h1
  by_cases hsc : (engine_should_compress cfg db0 now1 messages (some 0)).1
  case neg =>
    rw [if_pos (by simp [hsc, pyTruthyStr])] at h1
    simp at h1
  rw [if_neg (by simp [hsc, pyTruthyStr])] at h1
  rw [if_pos (by simp [hcache, pyTruthyStr]),
    get_cached_compression_empty db0 now1 messages hdb] at h1
  simp only [pyTruthyStr, Bool.false_eq_true, if_false] at h1
  cases hsel : select_best_strategy cfg env messages model with
  | none => rw [hsel] at h1; simp at h1
  | some name =>
    rw [hsel] at h1
    simp only [] at h1
    unfold run_strategy_and_record at h1
    cases hcomp : strategy_compress name cfg env
        (engine_context cfg messages 4096 model (some 0)) with
    | none => rw [hcomp] at h1; simp at h1
    | some result =>
      rw [hcomp] at h1
      simp only [] at h1
      rw [if_pos hcache] at h1
      rw [Prod.mk.injEq] at h1
      obtain ⟨hr1, hdb1⟩ := h1
      rw [Option.some.injEq] at hr1
      subst hr1
      have hdb1cache : db1.cache =
          [{ id := db0.next_id
             conversation_id := 0
             context_hash := create_compression_hash messages
             compressed_context := result.compressed_messages
             original_token_count := result.original_token_count
             compressed_token_count := result.compressed_token_count
             compression_strategy := result.strategy_used
             created_at := now1
             expires_at := now1 + cfg.cache_ttl_hours * 3600
             access_count := 0
             last_accessed := now1 }] := by
        rw [← hdb1]
        unfold cache_compression_result log_compression_metrics
        simp [hdb]
      -- the second call is a cache hit
      have hget := get_cached_compression_single db1 now2 messages _
        hdb1cache rfl (by simpa using httl) (by simpa using horig)
      have hfinal : compress_conversation cfg env db1 now2 messages (some 0)
          model 4096 none =
          (some
            { compressed_messages := result.compressed_messages
              original_token_count := result.original_token_count
              compressed_token_count := result.compressed_token_count
              compression_ratio :=
                (result.compressed_token_count : ℚ) /
                  (result.original_token_count : ℚ)
              compression_time_ms := 0
              quality_score := 0.8
              strategy_used := result.strategy_used
              metadata := .cachedMeta db0.next_id },
           { db1 with
             cache :=
               [{ id := db0.next_id
                  conversation_id := 0
                  context_hash := create_compression_hash messages
                  compressed_context := result.compressed_messages
                  original_token_count := result.original_token_count
                  compressed_token_count := result.compressed_token_count
                  compression_strategy := result.strategy_used
                  created_at := now1
                  expires_at := now1 + cfg.cache_ttl_hours * 3600
                  access_count := 1
                  last_accessed := now2 }] }) := by
        unfold compress_conversation
        rw [if_neg hmsgs]
        rw [if_neg (by
          rw [← engine_should_compress_cid_zero cfg db0 db1 now1 now2 messages]
          simp [hsc, pyTruthyStr])]
        rw [if_pos (by simp [hcache, pyTruthyStr]), hget]
      rw [hfinal]
      refine ⟨rfl, rfl, rfl, rfl, ?_, ?_⟩
      · rw [hdb1cache]
        rfl
      · rw [hdb1cache]
        rfl

def c8messages : List Message :=
  (List.range 4).map fun _ => { role := "user", content := "hi" }

def c8cfg : CompressionConfig :=
  { enabled := true, trigger_message_count := 3
    rolling_window := { window_size := 1 } }

def c8env : LlmEnv :=
  { healthy := false, generate := fun _ => Except.error "down", nowIso := "TS" }

def c8run1 : Option CompressionResult × EngineDB :=
  compress_conversation c8cfg c8env {} 1000 c8messages none none 4096 none

def c8run2 : Option CompressionResult × EngineDB :=
  compress_conversation c8cfg c8env c8run1.2 1001 c8messages none none 4096
    none

unseal Nat.gcd Rat.add Rat.mul Rat.inv Rat.sub Rat.ofScientific in
/-- C8 (counterexample): compressing the same 4-message list twice in
immediate succession with the engine's default `conversation_id = None` —
caching enabled, nothing forced — does NOT serve the second call from the
cache: the `NOT NULL` `conversation_id` column made the first call's cache
insert fail silently, so after both calls the cache is still empty and the
second result carries no `cached` marker (a fresh strategy run). -/
theorem C8_counterexample :
    c8cfg.cache_enabled = true ∧
    c8run1.1.isSome = true ∧
    c8run2.1.isSome = true ∧
    c8run2.2.cache = [] ∧
    c8run2.1.map (fun r => result_is_cached r) = some false := by
  refine ⟨rfl, by decide, by decide, by decide, by decide⟩

def c8zr1 : CompressionResult :=
  rolling_window_compress c8cfg
    (engine_context c8cfg c8messages 4096 none (some 0))

def c8zdb1 : EngineDB :=
  (compress_conversation c8cfg c8env {} 1000 c8messages (some 0) none 4096
    none).2

unseal Nat.gcd Rat.add Rat.mul Rat.inv Rat.sub Rat.ofScientific in
theorem C8_witness :
    c8cfg.cache_enabled = true ∧
    ({} : EngineDB).cache = [] ∧
    compress_conversation c8cfg c8env {} 1000 c8messages (some 0) none 4096
        none = (some c8zr1, c8zdb1) ∧
    1001 < 1000 + c8cfg.cache_ttl_hours * 3600 ∧
    0 < c8zr1.original_token_count ∧
    ((compress_conversation c8cfg c8env c8zdb1 1001 c8messages (some 0) none
        4096 none).1.map (fun r => r.compressed_messages) =
      some c8zr1.compressed_messages) ∧
    ((compress_conversation c8cfg c8env c8zdb1 1001 c8messages (some 0) none
        4096 none).1.map (fun r => result_is_cached r) = some true) := by
  have h1 : compress_conversation c8cfg c8env {} 1000 c8messages (some 0)
      none 4096 none = (some c8zr1, c8zdb1) := by decide
  have hmain := C8_amended_cache_round_trip c8cfg c8env {} c8zdb1 1000 1001
    c8messages none c8zr1 rfl rfl h1 (by decide) (by decide)
  refine ⟨rfl, rfl, h1, by decide, by decide, hmain.1, hmain.2.2.2.1⟩

/-! ## Claim C7 (development notes)

The cache key is `md5(json.dumps([m.get('content','') for m in messages],
sort_keys=True))`.  Determinism and role/timestamp-independence are
properties of the serialization pre-image, proved below over
`create_compression_hash`.  Whether two message lists differing only in
the order of messages with distinct contents always receive different MD5
digests is exactly MD5 collision-freeness over these serializations:
MD5 is not injective, and no explicit colliding permutation pair is
known, so that half of the claim is left unsettled. -/

/-- The hash input depends only on the ordered contents: messages with the
same contents but different roles, timestamps or summary flags hash
identically — the hash is in particular wall-clock-independent. -/
theorem compression_hash_depends_only_on_contents (m1 m2 : List Message)
    (h : m1.map (fun m => m.content) = m2.map (fun m => m.content)) :
    create_compression_hash m1 = create_compression_hash m2 := h

/-- Reordering messages with distinct contents changes the serialization
pre-image handed to MD5 (the content-list key is order-sensitive). -/
theorem compression_hash_input_order_sensitive (a b : Message)
    (h : a.content ≠ b.content) :
    create_compression_hash [a, b] ≠ create_compression_hash [b, a] := by
  intro hc
  have := congrArg List.head? hc
  simp [create_compression_hash] at this
  exact h this

end ChatOLlama
